import Mathlib

/-! Verification of the swisseph-js calculation gateway and marshalling layer.

This file shallowly embeds the flag-composition utilities and domain result
mapping of `packages/core`, the native Node gateway of `packages/node`, and
the WebAssembly browser gateway of `packages/browser`.  Double-precision
engine outputs are embedded as rationals, JavaScript 32-bit bitmask
arithmetic as `Nat` bitwise operations on the option range, and the external
computation engine as an explicit outcome argument describing what the
engine writes back for the one call an operation makes. -/

namespace Swisseph

/-- Named calculation options of `enum CalculationFlag` (core enums). -/
inductive CalculationFlag where
  | JPLEphemeris
  | SwissEphemeris
  | MoshierEphemeris
  | Heliocentric
  | TruePositions
  | J2000
  | NoNutation
  | Speed3
  | Speed
  | NoGravitationalDeflection
  | NoAberration
  | Equatorial
  | XYZ
  | Radians
  | Barycentric
  | Topocentric
  | Sidereal
  | ICRS
  | DpsidepsIAU1980
  | JPLHorizons
  | JPLHorizonsApprox
  deriving DecidableEq, Repr

/-- Numeric bit value of each named calculation option, exactly the enum
values of `enum CalculationFlag`. -/
def CalculationFlag.toNat : CalculationFlag → Nat
  | .JPLEphemeris => 1
  | .SwissEphemeris => 2
  | .MoshierEphemeris => 4
  | .Heliocentric => 8
  | .TruePositions => 16
  | .J2000 => 32
  | .NoNutation => 64
  | .Speed3 => 128
  | .Speed => 256
  | .NoGravitationalDeflection => 512
  | .NoAberration => 1024
  | .Equatorial => 2048
  | .XYZ => 4096
  | .Radians => 8192
  | .Barycentric => 16384
  | .Topocentric => 32768
  | .Sidereal => 65536
  | .ICRS => 131072
  | .DpsidepsIAU1980 => 262144
  | .JPLHorizons => 524288
  | .JPLHorizonsApprox => 1048576

namespace EclipseType

/-- Bit value `EclipseType.Central`. -/
def Central : Nat := 1

/-- Bit value `EclipseType.NonCentral`. -/
def NonCentral : Nat := 2

/-- Bit value `EclipseType.Total`. -/
def Total : Nat := 4

/-- Bit value `EclipseType.Annular`. -/
def Annular : Nat := 8

/-- Bit value `EclipseType.Partial`. -/
def Partial : Nat := 16

/-- Bit value `EclipseType.AnnularTotal`. -/
def AnnularTotal : Nat := 32

/-- Bit value `EclipseType.Penumbral`. -/
def Penumbral : Nat := 64

end EclipseType

/-- Builder state of the TS class `CalculationFlags` (core flags.ts): one
private integer field `flags`, initially 0. -/
structure CalculationFlags where
  flags : Nat
  deriving DecidableEq, Repr

/-- Fresh builder, `new CalculationFlags()` with no initial flags. -/
def CalculationFlags.empty : CalculationFlags := ⟨0⟩

/-- Method `add` applied to a single flag: `this.flags |= flag`.  On the
non-negative 32-bit option range, JS bitwise OR is `Nat.lor`. -/
def CalculationFlags.add (b : CalculationFlags) (f : Nat) : CalculationFlags :=
  ⟨b.flags ||| f⟩

/-- Method `add` applied to an array: `flag.forEach((f) => (this.flags |= f))`. -/
def CalculationFlags.addList (b : CalculationFlags) (fs : List Nat) : CalculationFlags :=
  fs.foldl CalculationFlags.add b

/-- Method `remove` applied to a single flag: `this.flags &= ~flag`, where JS
`~` complements the 32-bit representation, i.e. XORs with `2 ^ 32 - 1`. -/
def CalculationFlags.remove (b : CalculationFlags) (f : Nat) : CalculationFlags :=
  ⟨b.flags &&& (4294967295 ^^^ f)⟩

/-- Method `has`: `(this.flags & flag) === flag`. -/
def CalculationFlags.hasFlag (b : CalculationFlags) (f : Nat) : Bool :=
  (b.flags &&& f) == f

/-- Method `toNumber`: returns the private integer. -/
def CalculationFlags.toNumber (b : CalculationFlags) : Nat := b.flags

/-- Constructor `new CalculationFlags(flags)` on an array of options, which is
also the static `CalculationFlags.from(...flags)`. -/
def CalculationFlags.ofFlagList (fs : List CalculationFlag) : CalculationFlags :=
  CalculationFlags.empty.addList (fs.map CalculationFlag.toNat)

/-- The four input shapes accepted by `normalizeFlags` (core flags.ts): a raw
number, a single named option, a `CalculationFlags` builder, or an array of
named options. -/
inductive CalculationFlagInput where
  | raw (n : Nat)
  | single (f : CalculationFlag)
  | builder (b : CalculationFlags)
  | flagList (fs : List CalculationFlag)
  deriving DecidableEq, Repr

/-- Function `normalizeFlags` (core flags.ts), one branch per accepted
input shape. -/
def normalizeFlags : CalculationFlagInput → Nat
  | .raw n => n
  | .builder b => b.toNumber
  | .flagList fs => (CalculationFlags.ofFlagList fs).toNumber
  | .single f => f.toNat

/-- Left-associated JS bitwise OR chain `f1 | f2 | ... | fn` over a list of
bit values (0 for the empty chain): the raw pre-OR'd integer shape. -/
def orChain : List Nat → Nat
  | [] => 0
  | f :: fs => fs.foldl (· ||| ·) f

/-- Builder state of the TS class `EclipseTypeFlags` (core flags.ts). -/
structure EclipseTypeFlags where
  flags : Nat
  deriving DecidableEq, Repr

/-- Method `add` of `EclipseTypeFlags` on a single type: `this.flags |= flag`. -/
def EclipseTypeFlags.add (b : EclipseTypeFlags) (t : Nat) : EclipseTypeFlags :=
  ⟨b.flags ||| t⟩

/-- Method `add` of `EclipseTypeFlags` on an array of types. -/
def EclipseTypeFlags.addList (b : EclipseTypeFlags) (ts : List Nat) : EclipseTypeFlags :=
  ts.foldl EclipseTypeFlags.add b

/-- Method `toNumber` of `EclipseTypeFlags`. -/
def EclipseTypeFlags.toNumber (b : EclipseTypeFlags) : Nat := b.flags

/-- Input shapes accepted by `normalizeEclipseTypes` (core flags.ts). -/
inductive EclipseTypeFlagInput where
  | raw (n : Nat)
  | single (t : Nat)
  | builder (b : EclipseTypeFlags)
  | typeList (ts : List Nat)
  deriving DecidableEq, Repr

/-- Function `normalizeEclipseTypes` (core flags.ts). -/
def normalizeEclipseTypes : EclipseTypeFlagInput → Nat
  | .raw n => n
  | .builder b => b.toNumber
  | .typeList ts => ((EclipseTypeFlags.mk 0).addList ts).toNumber
  | .single t => t

/-- Lunar eclipse record, class `LunarEclipseImpl` (core implementations.ts):
the raw `type` bitmask plus the maximum and six phase-boundary instants in
Julian days. -/
structure LunarEclipseImpl where
  type : Nat
  maximum : ℚ
  partialBegin : ℚ
  partialEnd : ℚ
  totalBegin : ℚ
  totalEnd : ℚ
  penumbralBegin : ℚ
  penumbralEnd : ℚ
  deriving DecidableEq, Repr

/-- Method `isTotal` of `LunarEclipseImpl`: `(this.type & EclipseType.Total) !== 0`. -/
def LunarEclipseImpl.isTotal (e : LunarEclipseImpl) : Bool :=
  e.type &&& EclipseType.Total != 0

/-- Method `isPartial` of `LunarEclipseImpl`. -/
def LunarEclipseImpl.isPartial (e : LunarEclipseImpl) : Bool :=
  e.type &&& EclipseType.Partial != 0

/-- Method `isPenumbralOnly` of `LunarEclipseImpl`: the penumbral bit set and
neither the total nor the partial bit set. -/
def LunarEclipseImpl.isPenumbralOnly (e : LunarEclipseImpl) : Bool :=
  (e.type &&& EclipseType.Penumbral != 0) &&
    (e.type &&& (EclipseType.Total ||| EclipseType.Partial) == 0)

/-- Method `getTotalityDuration`: 0 unless the record is total and both
totality boundaries are non-sentinel; otherwise `(end - begin) * 24` hours,
clamped to 0 when non-positive. -/
def LunarEclipseImpl.getTotalityDuration (e : LunarEclipseImpl) : ℚ :=
  if e.isTotal = false ∨ e.totalBegin = 0 ∨ e.totalEnd = 0 then 0
  else
    let duration := (e.totalEnd - e.totalBegin) * 24
    if duration > 0 then duration else 0

/-- Method `getPartialDuration`: 0 on a sentinel partial boundary, otherwise
`(end - begin) * 24` hours clamped to 0 when non-positive. -/
def LunarEclipseImpl.getPartialDuration (e : LunarEclipseImpl) : ℚ :=
  if e.partialBegin = 0 ∨ e.partialEnd = 0 then 0
  else
    let duration := (e.partialEnd - e.partialBegin) * 24
    if duration > 0 then duration else 0

/-- Method `getTotalDuration`: 0 on a sentinel penumbral boundary, otherwise
`(end - begin) * 24` hours clamped to 0 when non-positive. -/
def LunarEclipseImpl.getTotalDuration (e : LunarEclipseImpl) : ℚ :=
  if e.penumbralBegin = 0 ∨ e.penumbralEnd = 0 then 0
  else
    let duration := (e.penumbralEnd - e.penumbralBegin) * 24
    if duration > 0 then duration else 0

/-- Solar eclipse record, class `SolarEclipseImpl` (core implementations.ts). -/
structure SolarEclipseImpl where
  type : Nat
  maximum : ℚ
  partialBegin : ℚ
  partialEnd : ℚ
  centralBegin : ℚ
  centralEnd : ℚ
  centerLineBegin : ℚ
  centerLineEnd : ℚ
  deriving DecidableEq, Repr

/-- Method `isTotal` of `SolarEclipseImpl`. -/
def SolarEclipseImpl.isTotal (e : SolarEclipseImpl) : Bool :=
  e.type &&& EclipseType.Total != 0

/-- Method `isAnnular` of `SolarEclipseImpl`. -/
def SolarEclipseImpl.isAnnular (e : SolarEclipseImpl) : Bool :=
  e.type &&& EclipseType.Annular != 0

/-- Method `isHybrid` of `SolarEclipseImpl`. -/
def SolarEclipseImpl.isHybrid (e : SolarEclipseImpl) : Bool :=
  e.type &&& EclipseType.AnnularTotal != 0

/-- Method `isPartial` of `SolarEclipseImpl`. -/
def SolarEclipseImpl.isPartial (e : SolarEclipseImpl) : Bool :=
  e.type &&& EclipseType.Partial != 0

/-- Method `isCentral` of `SolarEclipseImpl`. -/
def SolarEclipseImpl.isCentral (e : SolarEclipseImpl) : Bool :=
  e.type &&& EclipseType.Central != 0

/-- Method `isNonCentral` of `SolarEclipseImpl`. -/
def SolarEclipseImpl.isNonCentral (e : SolarEclipseImpl) : Bool :=
  e.type &&& EclipseType.NonCentral != 0

/-- Date-time record, class `DateTimeImpl` (core implementations.ts), without
its formatting helpers. -/
structure DateTimeImpl where
  year : Int
  month : Int
  day : Int
  hour : ℚ
  calendarType : Nat
  deriving DecidableEq, Repr

/-- Planetary position record produced from the six position-buffer slots and
the engine return code (node index.ts and browser gateway). -/
structure PlanetaryPosition where
  longitude : ℚ
  latitude : ℚ
  distance : ℚ
  longitudeSpeed : ℚ
  latitudeSpeed : ℚ
  distanceSpeed : ℚ
  flags : Int
  deriving DecidableEq, Repr

namespace HousePoint

/-- Index `HousePoint.Ascendant`. -/
def Ascendant : Nat := 0

/-- Index `HousePoint.MC`. -/
def MC : Nat := 1

/-- Index `HousePoint.ARMC`. -/
def ARMC : Nat := 2

/-- Index `HousePoint.Vertex`. -/
def Vertex : Nat := 3

/-- Index `HousePoint.EquatorialAscendant`. -/
def EquatorialAscendant : Nat := 4

/-- Index `HousePoint.CoAscendant1`. -/
def CoAscendant1 : Nat := 5

/-- Index `HousePoint.CoAscendant2`. -/
def CoAscendant2 : Nat := 6

/-- Index `HousePoint.PolarAscendant`. -/
def PolarAscendant : Nat := 7

end HousePoint

/-- House data record built from the 13-slot cusp buffer and the 10-slot
angle buffer; `houseSystem` holds the character code of the house-system
letter that was passed to the engine. -/
structure HouseData where
  cusps : List ℚ
  ascendant : ℚ
  mc : ℚ
  armc : ℚ
  vertex : ℚ
  equatorialAscendant : ℚ
  coAscendant1 : ℚ
  coAscendant2 : ℚ
  polarAscendant : ℚ
  houseSystem : Nat
  deriving DecidableEq, Repr

/-- Outcome of one engine `swe_calc_ut` invocation: the return code, the six
doubles it writes into the position scratch buffer, and the error text it
writes into the error buffer. -/
structure CalcOutcome where
  retflag : Int
  xx : List ℚ
  serr : String
  deriving DecidableEq, Repr

/-- Outcome of one engine eclipse-search invocation (`swe_lun_eclipse_when`
or `swe_sol_eclipse_when_glob`): return code, ten-slot time buffer, error
text. -/
structure EclipseOutcome where
  retflag : Int
  tret : List ℚ
  serr : String
  deriving DecidableEq, Repr

/-- Outcome of one engine `swe_houses` invocation: return code, 13-slot cusp
buffer and 10-slot angle buffer. -/
structure HousesOutcome where
  ret : Int
  cusps : List ℚ
  ascmc : List ℚ
  deriving DecidableEq, Repr

/-- Outcome of one engine `swe_revjul` invocation: three integers plus the
fractional hour. -/
structure RevjulOutcome where
  year : Int
  month : Int
  day : Int
  hour : ℚ
  deriving DecidableEq, Repr

/-- Record of one invocation of an engine calculation entry point, with the
argument integers actually passed across the boundary. -/
inductive EngineCall where
  | calcUt (jd : ℚ) (body : Int) (iflag : Nat)
  | lunEclipseWhen (jd : ℚ) (ifl : Nat) (ifltype : Nat) (backward : Nat)
  | solEclipseWhenGlob (jd : ℚ) (ifl : Nat) (ifltype : Nat) (backward : Nat)
  | houses (jd : ℚ) (lat : ℚ) (lon : ℚ) (hsys : Nat)
  | julday (year : Int) (month : Int) (day : Int) (hour : ℚ) (gregflag : Nat)
  | revjul (jd : ℚ) (gregflag : Nat)
  | setEphePath (p : String)
  | planetName (body : Int)
  | version
  deriving DecidableEq, Repr

/-- Process-wide configuration state of the Node gateway: the module-level
`ephemerisPathSet` flag together with the history of `set_ephe_path`
configuration calls made into the engine. -/
structure EphemerisState where
  ephemerisPathSet : Bool
  configureCalls : List String
  deriving DecidableEq, Repr

/-- Bundled default data directory returned by `getBundledEphemerisPath`
(node index.ts): the `ephemeris` directory shipped next to the package. -/
def getBundledEphemerisPath : String := "../ephemeris"

/-- Function `ensureEphemerisInitialized` (node index.ts): when the request
flags do not select the Moshier files-free fallback and no path was ever
explicitly set, configure the bundled directory and mark the state
configured; otherwise leave the state untouched. -/
def ensureEphemerisInitialized (flags : Nat) (s : EphemerisState) : EphemerisState :=
  if s.ephemerisPathSet = false ∧ flags &&& CalculationFlag.MoshierEphemeris.toNat = 0 then
    { ephemerisPathSet := true
      configureCalls := s.configureCalls ++ [getBundledEphemerisPath] }
  else s

/-- Function `setEphemerisPath` (node index.ts): `none` models the
null/undefined argument selecting the bundled directory; either way the
state is marked explicitly configured. -/
def setEphemerisPath (path : Option String) (s : EphemerisState) : EphemerisState :=
  match path with
  | none =>
    { ephemerisPathSet := true
      configureCalls := s.configureCalls ++ [getBundledEphemerisPath] }
  | some p =>
    { ephemerisPathSet := true
      configureCalls := s.configureCalls ++ [p] }

/-- Result of one Node gateway operation: the returned value or raised error,
the configuration state afterwards, and the calculation entry points invoked
on the engine. -/
structure NodeOut (α : Type) where
  result : Except String α
  state : EphemerisState
  calls : List EngineCall
  deriving Repr

namespace CommonCalculationFlags

/-- Constant `CommonCalculationFlags.DefaultSwissEphemeris` (core enums):
`CalculationFlag.SwissEphemeris | CalculationFlag.Speed`. -/
def DefaultSwissEphemeris : Nat :=
  CalculationFlag.SwissEphemeris.toNat ||| CalculationFlag.Speed.toNat

/-- Constant `CommonCalculationFlags.DefaultMoshier` (core enums):
`CalculationFlag.MoshierEphemeris | CalculationFlag.Speed`. -/
def DefaultMoshier : Nat :=
  CalculationFlag.MoshierEphemeris.toNat ||| CalculationFlag.Speed.toNat

end CommonCalculationFlags

/-- Default `flags` argument of the Node `calculatePosition` wrapper. -/
def nodeCalcPositionDefaultFlags : CalculationFlagInput :=
  .raw CommonCalculationFlags.DefaultSwissEphemeris

/-- Default `flags` argument of the Node eclipse-search wrappers: the single
named option `CalculationFlag.SwissEphemeris`. -/
def nodeEclipseDefaultFlags : CalculationFlagInput := .single .SwissEphemeris

/-- Function `calculatePosition` (node index.ts): normalize the flags input,
run lazy initialization, invoke `binding.calc_ut`, and on a non-negative
return code map the six buffer slots positionally into a
`PlanetaryPosition` whose `flags` field carries the return code; a negative
return code raises the engine-supplied error text. -/
def nodeCalculatePosition (julianDay : ℚ) (body : Int)
    (flags : CalculationFlagInput) (engine : CalcOutcome)
    (s : EphemerisState) : NodeOut PlanetaryPosition :=
  let normalizedFlags := normalizeFlags flags
  let s1 := ensureEphemerisInitialized normalizedFlags s
  let call := EngineCall.calcUt julianDay body normalizedFlags
  if engine.retflag < 0 then
    { result := .error engine.serr, state := s1, calls := [call] }
  else
    { result := .ok
        { longitude := engine.xx.getD 0 0
          latitude := engine.xx.getD 1 0
          distance := engine.xx.getD 2 0
          longitudeSpeed := engine.xx.getD 3 0
          latitudeSpeed := engine.xx.getD 4 0
          distanceSpeed := engine.xx.getD 5 0
          flags := engine.retflag }
      state := s1
      calls := [call] }

/-- Function `julianDay` (node index.ts): direct pass-through of the five
arguments to `binding.julday`, whose scalar result is returned unchanged. -/
def nodeJulianDay (year month day : Int) (hour : ℚ) (calendarType : Nat)
    (engine : ℚ) (s : EphemerisState) : NodeOut ℚ :=
  { result := .ok engine
    state := s
    calls := [.julday year month day hour calendarType] }

/-- Function `julianDayToDate` (node index.ts): invoke `binding.revjul` and
build a `DateTimeImpl` from its four outputs plus the calendar argument. -/
def nodeJulianDayToDate (jd : ℚ) (calendarType : Nat)
    (engine : RevjulOutcome) (s : EphemerisState) : NodeOut DateTimeImpl :=
  { result := .ok
      { year := engine.year, month := engine.month, day := engine.day
        hour := engine.hour, calendarType := calendarType }
    state := s
    calls := [.revjul jd calendarType] }

/-- Function `calculateHouses` (node index.ts) through the binding `Houses`
wrapper: `hsys` is the character code of the house-system letter; a negative
engine return code raises `"Failed to calculate houses"`; otherwise the cusp
buffer is kept verbatim and the angle buffer is mapped by `HousePoint`
index. -/
def nodeCalculateHouses (jd lat lon : ℚ) (hsys : Nat)
    (engine : HousesOutcome) (s : EphemerisState) : NodeOut HouseData :=
  let call := EngineCall.houses jd lat lon hsys
  if engine.ret < 0 then
    { result := .error "Failed to calculate houses", state := s, calls := [call] }
  else
    { result := .ok
        { cusps := engine.cusps
          ascendant := engine.ascmc.getD HousePoint.Ascendant 0
          mc := engine.ascmc.getD HousePoint.MC 0
          armc := engine.ascmc.getD HousePoint.ARMC 0
          vertex := engine.ascmc.getD HousePoint.Vertex 0
          equatorialAscendant := engine.ascmc.getD HousePoint.EquatorialAscendant 0
          coAscendant1 := engine.ascmc.getD HousePoint.CoAscendant1 0
          coAscendant2 := engine.ascmc.getD HousePoint.CoAscendant2 0
          polarAscendant := engine.ascmc.getD HousePoint.PolarAscendant 0
          houseSystem := hsys }
      state := s
      calls := [call] }

/-- Function `findNextLunarEclipse` (node index.ts): normalize flags and type
filter, run lazy initialization, invoke `binding.lun_eclipse_when`, and on a
non-negative return code build a `LunarEclipseImpl` from the return code and
the first seven time slots. -/
def nodeFindNextLunarEclipse (startJulianDay : ℚ) (flags : CalculationFlagInput)
    (eclipseType : EclipseTypeFlagInput) (backward : Bool)
    (engine : EclipseOutcome) (s : EphemerisState) : NodeOut LunarEclipseImpl :=
  let normalizedFlags := normalizeFlags flags
  let s1 := ensureEphemerisInitialized normalizedFlags s
  let normalizedEclipseType := normalizeEclipseTypes eclipseType
  let call := EngineCall.lunEclipseWhen startJulianDay normalizedFlags
    normalizedEclipseType (if backward then 1 else 0)
  if engine.retflag < 0 then
    { result := .error engine.serr, state := s1, calls := [call] }
  else
    { result := .ok
        { type := engine.retflag.toNat
          maximum := engine.tret.getD 0 0
          partialBegin := engine.tret.getD 1 0
          partialEnd := engine.tret.getD 2 0
          totalBegin := engine.tret.getD 3 0
          totalEnd := engine.tret.getD 4 0
          penumbralBegin := engine.tret.getD 5 0
          penumbralEnd := engine.tret.getD 6 0 }
      state := s1
      calls := [call] }

/-- Function `findNextSolarEclipse` (node index.ts): as the lunar search but
through `binding.sol_eclipse_when_glob`, building a `SolarEclipseImpl`. -/
def nodeFindNextSolarEclipse (startJulianDay : ℚ) (flags : CalculationFlagInput)
    (eclipseType : EclipseTypeFlagInput) (backward : Bool)
    (engine : EclipseOutcome) (s : EphemerisState) : NodeOut SolarEclipseImpl :=
  let normalizedFlags := normalizeFlags flags
  let s1 := ensureEphemerisInitialized normalizedFlags s
  let normalizedEclipseType := normalizeEclipseTypes eclipseType
  let call := EngineCall.solEclipseWhenGlob startJulianDay normalizedFlags
    normalizedEclipseType (if backward then 1 else 0)
  if engine.retflag < 0 then
    { result := .error engine.serr, state := s1, calls := [call] }
  else
    { result := .ok
        { type := engine.retflag.toNat
          maximum := engine.tret.getD 0 0
          partialBegin := engine.tret.getD 1 0
          partialEnd := engine.tret.getD 2 0
          centralBegin := engine.tret.getD 3 0
          centralEnd := engine.tret.getD 4 0
          centerLineBegin := engine.tret.getD 5 0
          centerLineEnd := engine.tret.getD 6 0 }
      state := s1
      calls := [call] }

/-- Function `getCelestialBodyName` (node index.ts): direct pass-through of
`binding.get_planet_name`. -/
def nodeGetCelestialBodyName (body : Int) (engine : String)
    (s : EphemerisState) : NodeOut String :=
  { result := .ok engine, state := s, calls := [.planetName body] }

/-- Linear-memory allocator state of the WASM module: a strictly increasing
bump pointer and the list of currently live (`_malloc`ed, not yet `_free`d)
base addresses. -/
structure Heap where
  next : Nat
  live : List Nat
  deriving DecidableEq, Repr

/-- Emscripten `_malloc(size)`: hands out the bump pointer as a fresh base
address and records it as live. -/
def Heap.malloc (h : Heap) (size : Nat) : Nat × Heap :=
  (h.next, { next := h.next + size, live := h.live ++ [h.next] })

/-- Emscripten `_free(p)`: removes the address from the live list. -/
def Heap.free (h : Heap) (p : Nat) : Heap :=
  { next := h.next, live := h.live.erase p }

/-- Well-formed heap: every live address was handed out by the bump
allocator, hence lies strictly below the bump pointer. -/
def Heap.WF (h : Heap) : Prop := ∀ p ∈ h.live, p < h.next

/-- Result of one browser gateway operation: the returned value or raised
error, the module heap afterwards, and the engine entry points invoked. -/
structure WasmOut (α : Type) where
  result : Except String α
  heap : Heap
  calls : List EngineCall
  deriving Repr

/-- Error text thrown by `_checkReady` (swisseph-browser.ts) when a method is
called before `init()` has completed. -/
def notReadyMessage : String :=
  "SwissEphemeris not initialized. Call await swe.init() first."

/-- Default `flags` argument of the browser `calculatePosition` method. -/
def wasmCalcPositionDefaultFlags : CalculationFlagInput :=
  .raw CommonCalculationFlags.DefaultMoshier

/-- Default `flags` argument of the browser eclipse-search methods: the
single named option `CalculationFlag.MoshierEphemeris`. -/
def wasmEclipseDefaultFlags : CalculationFlagInput := .single .MoshierEphemeris

/-- Method `version` (swisseph-browser.ts): readiness check, then the wrapped
`swe_version_wrap` string call. -/
def wasmVersion (ready : Bool) (engine : String) (h : Heap) : WasmOut String :=
  if ready = false then
    { result := .error notReadyMessage, heap := h, calls := [] }
  else
    { result := .ok engine, heap := h, calls := [.version] }

/-- Method `setEphemerisPath` (swisseph-browser.ts): readiness check,
`allocateUTF8` of the path (one byte per character plus the terminator),
`swe_set_ephe_path_wrap`, then `_free` of the string buffer. -/
def wasmSetEphemerisPath (ready : Bool) (path : String) (h : Heap) : WasmOut Unit :=
  if ready = false then
    { result := .error notReadyMessage, heap := h, calls := [] }
  else
    let (pathPtr, h1) := h.malloc (path.length + 1)
    { result := .ok ()
      heap := h1.free pathPtr
      calls := [.setEphePath path] }

/-- Method `julianDay` (swisseph-browser.ts): readiness check, then the
wrapped `swe_julday_wrap` numeric call, no heap traffic. -/
def wasmJulianDay (ready : Bool) (year month day : Int) (hour : ℚ)
    (calendarType : Nat) (engine : ℚ) (h : Heap) : WasmOut ℚ :=
  if ready = false then
    { result := .error notReadyMessage, heap := h, calls := [] }
  else
    { result := .ok engine
      heap := h
      calls := [.julday year month day hour calendarType] }

/-- Method `julianDayToDate` (swisseph-browser.ts): readiness check, four
heap allocations (4, 4, 4 and 8 bytes), `swe_revjul_wrap`, read-back of the
three integers and the double, then the four frees in allocation order. -/
def wasmJulianDayToDate (ready : Bool) (jd : ℚ) (calendarType : Nat)
    (engine : RevjulOutcome) (h : Heap) : WasmOut DateTimeImpl :=
  if ready = false then
    { result := .error notReadyMessage, heap := h, calls := [] }
  else
    let (yearPtr, h1) := h.malloc 4
    let (monthPtr, h2) := h1.malloc 4
    let (dayPtr, h3) := h2.malloc 4
    let (hourPtr, h4) := h3.malloc 8
    { result := .ok
        { year := engine.year, month := engine.month, day := engine.day
          hour := engine.hour, calendarType := calendarType }
      heap := (((h4.free yearPtr).free monthPtr).free dayPtr).free hourPtr
      calls := [.revjul jd calendarType] }

/-- Method `calculatePosition` (swisseph-browser.ts): readiness check,
allocation of the 6-double position buffer and the 256-byte error buffer,
`swe_calc_ut_wrap`, and on a negative return code both buffers are freed
before the engine error text is thrown; on success the six slots are read
back and both buffers freed. -/
def wasmCalculatePosition (ready : Bool) (julianDay : ℚ) (body : Int)
    (flags : CalculationFlagInput) (engine : CalcOutcome)
    (h : Heap) : WasmOut PlanetaryPosition :=
  if ready = false then
    { result := .error notReadyMessage, heap := h, calls := [] }
  else
    let normalizedFlags := normalizeFlags flags
    let (xxPtr, h1) := h.malloc (6 * 8)
    let (serrPtr, h2) := h1.malloc 256
    let call := EngineCall.calcUt julianDay body normalizedFlags
    if engine.retflag < 0 then
      { result := .error engine.serr
        heap := (h2.free xxPtr).free serrPtr
        calls := [call] }
    else
      { result := .ok
          { longitude := engine.xx.getD 0 0
            latitude := engine.xx.getD 1 0
            distance := engine.xx.getD 2 0
            longitudeSpeed := engine.xx.getD 3 0
            latitudeSpeed := engine.xx.getD 4 0
            distanceSpeed := engine.xx.getD 5 0
            flags := engine.retflag }
        heap := (h2.free xxPtr).free serrPtr
        calls := [call] }

/-- Method `getCelestialBodyName` (swisseph-browser.ts): readiness check,
then the wrapped `swe_get_planet_name_wrap` string call. -/
def wasmGetCelestialBodyName (ready : Bool) (body : Int) (engine : String)
    (h : Heap) : WasmOut String :=
  if ready = false then
    { result := .error notReadyMessage, heap := h, calls := [] }
  else
    { result := .ok engine, heap := h, calls := [.planetName body] }

/-- Method `findNextLunarEclipse` (swisseph-browser.ts): readiness check,
allocation of the 10-double time buffer and the 256-byte error buffer,
`swe_lun_eclipse_when_wrap`, both buffers freed on the error path and on the
success path, and on success a `LunarEclipseImpl` built from the return code
and the first seven time slots. -/
def wasmFindNextLunarEclipse (ready : Bool) (startJulianDay : ℚ)
    (flags : CalculationFlagInput) (eclipseType : EclipseTypeFlagInput)
    (backward : Bool) (engine : EclipseOutcome) (h : Heap) :
    WasmOut LunarEclipseImpl :=
  if ready = false then
    { result := .error notReadyMessage, heap := h, calls := [] }
  else
    let normalizedFlags := normalizeFlags flags
    let normalizedEclipseType := normalizeEclipseTypes eclipseType
    let (tretPtr, h1) := h.malloc (10 * 8)
    let (serrPtr, h2) := h1.malloc 256
    let call := EngineCall.lunEclipseWhen startJulianDay normalizedFlags
      normalizedEclipseType (if backward then 1 else 0)
    if engine.retflag < 0 then
      { result := .error engine.serr
        heap := (h2.free tretPtr).free serrPtr
        calls := [call] }
    else
      { result := .ok
          { type := engine.retflag.toNat
            maximum := engine.tret.getD 0 0
            partialBegin := engine.tret.getD 1 0
            partialEnd := engine.tret.getD 2 0
            totalBegin := engine.tret.getD 3 0
            totalEnd := engine.tret.getD 4 0
            penumbralBegin := engine.tret.getD 5 0
            penumbralEnd := engine.tret.getD 6 0 }
        heap := (h2.free tretPtr).free serrPtr
        calls := [call] }

/-- Method `findNextSolarEclipse` (swisseph-browser.ts): as the lunar search
but through `swe_sol_eclipse_when_glob_wrap`, building a `SolarEclipseImpl`. -/
def wasmFindNextSolarEclipse (ready : Bool) (startJulianDay : ℚ)
    (flags : CalculationFlagInput) (eclipseType : EclipseTypeFlagInput)
    (backward : Bool) (engine : EclipseOutcome) (h : Heap) :
    WasmOut SolarEclipseImpl :=
  if ready = false then
    { result := .error notReadyMessage, heap := h, calls := [] }
  else
    let normalizedFlags := normalizeFlags flags
    let normalizedEclipseType := normalizeEclipseTypes eclipseType
    let (tretPtr, h1) := h.malloc (10 * 8)
    let (serrPtr, h2) := h1.malloc 256
    let call := EngineCall.solEclipseWhenGlob startJulianDay normalizedFlags
      normalizedEclipseType (if backward then 1 else 0)
    if engine.retflag < 0 then
      { result := .error engine.serr
        heap := (h2.free tretPtr).free serrPtr
        calls := [call] }
    else
      { result := .ok
          { type := engine.retflag.toNat
            maximum := engine.tret.getD 0 0
            partialBegin := engine.tret.getD 1 0
            partialEnd := engine.tret.getD 2 0
            centralBegin := engine.tret.getD 3 0
            centralEnd := engine.tret.getD 4 0
            centerLineBegin := engine.tret.getD 5 0
            centerLineEnd := engine.tret.getD 6 0 }
        heap := (h2.free tretPtr).free serrPtr
        calls := [call] }

/-- Method `calculateHouses` (swisseph-browser.ts): readiness check,
allocation of the 13-double cusp buffer and the 10-double angle buffer,
`swe_houses_wrap` (its return code is not inspected), read-back of both
buffers, both frees, and the `HouseData` mapping; `hsys` is
`houseSystem.charCodeAt(0)`. -/
def wasmCalculateHouses (ready : Bool) (jd lat lon : ℚ) (hsys : Nat)
    (engine : HousesOutcome) (h : Heap) : WasmOut HouseData :=
  if ready = false then
    { result := .error notReadyMessage, heap := h, calls := [] }
  else
    let (cuspsPtr, h1) := h.malloc (13 * 8)
    let (ascmcPtr, h2) := h1.malloc (10 * 8)
    { result := .ok
        { cusps := engine.cusps
          ascendant := engine.ascmc.getD HousePoint.Ascendant 0
          mc := engine.ascmc.getD HousePoint.MC 0
          armc := engine.ascmc.getD HousePoint.ARMC 0
          vertex := engine.ascmc.getD HousePoint.Vertex 0
          equatorialAscendant := engine.ascmc.getD HousePoint.EquatorialAscendant 0
          coAscendant1 := engine.ascmc.getD HousePoint.CoAscendant1 0
          coAscendant2 := engine.ascmc.getD HousePoint.CoAscendant2 0
          polarAscendant := engine.ascmc.getD HousePoint.PolarAscendant 0
          houseSystem := hsys }
      heap := (h2.free cuspsPtr).free ascmcPtr
      calls := [.houses jd lat lon hsys] }

/-- Repeated failing browser position calls: the heap after `n` consecutive
invocations of `calculatePosition` with the same arguments, each call
starting from the heap the previous call left behind. -/
def iterateWasmCalcHeap (julianDay : ℚ) (body : Int)
    (flags : CalculationFlagInput) (engine : CalcOutcome) :
    Nat → Heap → Heap
  | 0, h => h
  | n + 1, h =>
    iterateWasmCalcHeap julianDay body flags engine n
      (wasmCalculatePosition true julianDay body flags engine h).heap

lemma CalculationFlags.addList_flags (b : CalculationFlags) (l : List Nat) :
    (b.addList l).flags = l.foldl (· ||| ·) b.flags := by
  induction l generalizing b with
  | nil => rfl
  | cons a l ih =>
    simpa [CalculationFlags.addList, CalculationFlags.add] using ih ⟨b.flags ||| a⟩

lemma orChain_eq_foldl (l : List Nat) : orChain l = l.foldl (· ||| ·) 0 := by
  cases l with
  | nil => rfl
  | cons a l => simp [orChain]

/-- C1: for a finite list of named calculation options, normalizing the raw
pre-OR'd integer, the option array, and the builder produced by sequential
`add` calls all yield the same integer, and for a singleton list the single
named option normalizes to that same integer. -/
theorem flag_normalization_equivalent (fs : List CalculationFlag) :
    normalizeFlags (.raw (orChain (fs.map CalculationFlag.toNat)))
        = normalizeFlags (.flagList fs)
  ∧ normalizeFlags (.builder
        (fs.foldl (fun b f => b.add f.toNat) CalculationFlags.empty))
        = normalizeFlags (.flagList fs)
  ∧ ∀ f, fs = [f] → normalizeFlags (.single f) = normalizeFlags (.flagList fs) := by
  have hlist : normalizeFlags (.flagList fs)
      = (fs.map CalculationFlag.toNat).foldl (· ||| ·) 0 := by
    simp [normalizeFlags, CalculationFlags.ofFlagList, CalculationFlags.toNumber,
      CalculationFlags.addList_flags, CalculationFlags.empty]
  refine ⟨?_, ?_, ?_⟩
  · rw [hlist]
    simp [normalizeFlags, orChain_eq_foldl]
  · rw [hlist]
    simp only [normalizeFlags, CalculationFlags.toNumber]
    rw [← List.foldl_map CalculationFlag.toNat CalculationFlags.add fs CalculationFlags.empty]
    simpa using CalculationFlags.addList_flags CalculationFlags.empty
      (fs.map CalculationFlag.toNat)
  · rintro f rfl
    rw [hlist]
    simp [normalizeFlags]

/-- Witness for C1 at the singleton list `[Speed]`: all hypotheses of the
singleton clause hold there. -/
theorem flag_normalization_equivalent_witness :
    normalizeFlags (.single .Speed)
      = normalizeFlags (.flagList [CalculationFlag.Speed]) :=
  (flag_normalization_equivalent [.Speed]).2.2 .Speed rfl

lemma lor_land_not32 (f x : Nat) (hf : f < 4294967296) (hx : x < 4294967296)
    (hfx : f &&& x = 0) : (f ||| x) &&& (4294967295 ^^^ x) = f := by
  apply Nat.eq_of_testBit_eq
  intro i
  rw [Nat.testBit_land, Nat.testBit_lor, Nat.testBit_xor]
  have hm : (4294967295 : Nat) = 2 ^ 32 - 1 := by norm_num
  rw [hm, Nat.testBit_two_pow_sub_one]
  have hbit : (f.testBit i && x.testBit i) = false := by
    rw [← Nat.testBit_land, hfx, Nat.zero_testBit]
  by_cases hi : i < 32
  · cases hxk : x.testBit i with
    | false => simp [hi, hxk]
    | true =>
      have hfk : f.testBit i = false := by
        cases hfk : f.testBit i
        · rfl
        · rw [hfk, hxk] at hbit
          exact absurd hbit (by simp)
      simp [hi, hxk, hfk]
  · have h32 : (4294967296 : Nat) ≤ 2 ^ i := by
      calc (4294967296 : Nat) = 2 ^ 32 := by norm_num
      _ ≤ 2 ^ i := Nat.pow_le_pow_right (by norm_num) (not_lt.mp hi)
    have hxf : x.testBit i = false :=
      Nat.testBit_eq_false_of_lt (lt_of_lt_of_le hx h32)
    have hff : f.testBit i = false :=
      Nat.testBit_eq_false_of_lt (lt_of_lt_of_le hf h32)
    simp [hi, hxf, hff]

/-- C7 (amended): adding a flag twice equals adding it once, for every
builder state; and `add(x)` followed by `remove(x)` restores the builder
provided the state is in the 32-bit range and held no bit of `x` before the
`add`. -/
theorem builder_mutation_laws (b : CalculationFlags) (x : Nat) :
    (b.add x).add x = b.add x
  ∧ (b.flags < 4294967296 → x < 4294967296 → b.flags &&& x = 0 →
      (b.add x).remove x = b) := by
  constructor
  · simp [CalculationFlags.add, Nat.lor_assoc]
  · intro hf hx hfx
    cases b with
    | mk flags =>
      simp only [CalculationFlags.add, CalculationFlags.remove, CalculationFlags.mk.injEq]
      exact lor_land_not32 flags x hf hx hfx

/-- Witness for C7 at the state holding only the SwissEphemeris bit and the
Speed flag: both laws hold with all hypotheses discharged. -/
theorem builder_mutation_laws_witness :
    ((CalculationFlags.mk 2).add 256).add 256 = (CalculationFlags.mk 2).add 256
  ∧ ((CalculationFlags.mk 2).add 256).remove 256 = CalculationFlags.mk 2 :=
  ⟨(builder_mutation_laws ⟨2⟩ 256).1,
   (builder_mutation_laws ⟨2⟩ 256).2 (by decide) (by decide) (by decide)⟩

/-- C7 counterexample: from the builder state that already holds the Moshier
bit, `add(4)` followed by `remove(4)` does not restore the original state,
so add-then-remove is not always equivalent to doing nothing. -/
theorem builder_add_remove_not_inverse_cx :
    ((CalculationFlags.mk 4).add 4).remove 4 ≠ CalculationFlags.mk 4 := by
  decide

lemma clamp_eq (c : Prop) [Decidable c] (d : ℚ) :
    (if c then 0 else if d > 0 then d else 0) = if c ∨ d ≤ 0 then 0 else d := by
  by_cases hc : c
  · simp [hc]
  · by_cases hd : d > 0
    · simp [hc, hd, not_le.mpr hd]
    · simp [hc, hd, le_of_not_lt hd]

lemma clamp_nonneg (c : Prop) [Decidable c] (d : ℚ) :
    0 ≤ (if c then 0 else if d > 0 then d else 0) := by
  split_ifs with h1 h2
  · exact le_refl 0
  · exact le_of_lt h2
  · exact le_refl 0

/-- C2 (amended): each lunar duration equals `(end - begin) * 24` clamped to
0 when the subtraction is non-positive or either boundary is the sentinel 0,
where `getTotalityDuration` additionally clamps to 0 whenever the Total type
bit is unset; consequently every duration is non-negative and is exactly 0
whenever either relevant boundary is 0. -/
theorem lunar_duration_clamping (e : LunarEclipseImpl) :
    (e.getPartialDuration =
        if e.partialBegin = 0 ∨ e.partialEnd = 0 ∨ (e.partialEnd - e.partialBegin) * 24 ≤ 0
        then 0 else (e.partialEnd - e.partialBegin) * 24)
  ∧ (e.getTotalDuration =
        if e.penumbralBegin = 0 ∨ e.penumbralEnd = 0
            ∨ (e.penumbralEnd - e.penumbralBegin) * 24 ≤ 0
        then 0 else (e.penumbralEnd - e.penumbralBegin) * 24)
  ∧ (e.getTotalityDuration =
        if e.isTotal = false ∨ e.totalBegin = 0 ∨ e.totalEnd = 0
            ∨ (e.totalEnd - e.totalBegin) * 24 ≤ 0
        then 0 else (e.totalEnd - e.totalBegin) * 24)
  ∧ 0 ≤ e.getPartialDuration
  ∧ 0 ≤ e.getTotalDuration
  ∧ 0 ≤ e.getTotalityDuration
  ∧ (e.partialBegin = 0 ∨ e.partialEnd = 0 → e.getPartialDuration = 0)
  ∧ (e.penumbralBegin = 0 ∨ e.penumbralEnd = 0 → e.getTotalDuration = 0)
  ∧ (e.totalBegin = 0 ∨ e.totalEnd = 0 → e.getTotalityDuration = 0) := by
  have hp := clamp_eq (e.partialBegin = 0 ∨ e.partialEnd = 0)
    ((e.partialEnd - e.partialBegin) * 24)
  have hn := clamp_eq (e.penumbralBegin = 0 ∨ e.penumbralEnd = 0)
    ((e.penumbralEnd - e.penumbralBegin) * 24)
  have ht := clamp_eq (e.isTotal = false ∨ e.totalBegin = 0 ∨ e.totalEnd = 0)
    ((e.totalEnd - e.totalBegin) * 24)
  have hp' : e.getPartialDuration =
      if e.partialBegin = 0 ∨ e.partialEnd = 0 ∨ (e.partialEnd - e.partialBegin) * 24 ≤ 0
      then 0 else (e.partialEnd - e.partialBegin) * 24 := by
    simp only [LunarEclipseImpl.getPartialDuration]
    rw [hp]
    simp only [or_assoc]
  have hn' : e.getTotalDuration =
      if e.penumbralBegin = 0 ∨ e.penumbralEnd = 0
          ∨ (e.penumbralEnd - e.penumbralBegin) * 24 ≤ 0
      then 0 else (e.penumbralEnd - e.penumbralBegin) * 24 := by
    simp only [LunarEclipseImpl.getTotalDuration]
    rw [hn]
    simp only [or_assoc]
  have ht' : e.getTotalityDuration =
      if e.isTotal = false ∨ e.totalBegin = 0 ∨ e.totalEnd = 0
          ∨ (e.totalEnd - e.totalBegin) * 24 ≤ 0
      then 0 else (e.totalEnd - e.totalBegin) * 24 := by
    simp only [LunarEclipseImpl.getTotalityDuration]
    rw [ht]
    simp only [or_assoc]
  refine ⟨hp', hn', ht', ?_, ?_, ?_, ?_, ?_, ?_⟩
  · simpa only [LunarEclipseImpl.getPartialDuration] using
      clamp_nonneg (e.partialBegin = 0 ∨ e.partialEnd = 0)
        ((e.partialEnd - e.partialBegin) * 24)
  · simpa only [LunarEclipseImpl.getTotalDuration] using
      clamp_nonneg (e.penumbralBegin = 0 ∨ e.penumbralEnd = 0)
        ((e.penumbralEnd - e.penumbralBegin) * 24)
  · simpa only [LunarEclipseImpl.getTotalityDuration] using
      clamp_nonneg (e.isTotal = false ∨ e.totalBegin = 0 ∨ e.totalEnd = 0)
        ((e.totalEnd - e.totalBegin) * 24)
  · rintro (h | h) <;> simp [hp', h]
  · rintro (h | h) <;> simp [hn', h]
  · rintro (h | h) <;> simp [ht', h]

/-- Witness for C2 at a total eclipse record whose totality-begin slot holds
the sentinel 0: the totality duration is 0. -/
theorem lunar_duration_clamping_witness :
    (LunarEclipseImpl.mk 4 0 0 0 0 5 3 4).getTotalityDuration = 0 :=
  (lunar_duration_clamping _).2.2.2.2.2.2.2.2 (Or.inl rfl)

/-- C2 counterexample: a record whose type bitmask lacks the Total bit but
whose totality boundaries are nonzero with a positive difference; the claimed
formula yields 24 hours while the code returns 0 because of the extra type
gate. -/
theorem totality_formula_needs_total_bit_cx :
    (LunarEclipseImpl.mk 0 0 0 0 1 2 0 0).getTotalityDuration = 0
  ∧ ((LunarEclipseImpl.mk 0 0 0 0 1 2 0 0).totalEnd
        - (LunarEclipseImpl.mk 0 0 0 0 1 2 0 0).totalBegin) * 24 = 24
  ∧ (LunarEclipseImpl.mk 0 0 0 0 1 2 0 0).totalBegin ≠ 0
  ∧ (LunarEclipseImpl.mk 0 0 0 0 1 2 0 0).totalEnd ≠ 0 := by
  refine ⟨?_, by norm_num, by norm_num, by norm_num⟩
  simp [LunarEclipseImpl.getTotalityDuration, LunarEclipseImpl.isTotal, EclipseType.Total]

/-- C3 (amended): every derived eclipse predicate reads only the type
bitmask, so two records with the same type bitmask agree on every predicate
regardless of their phase-boundary slots; a sentinel boundary does not make
the predicates report the phase as absent. -/
theorem eclipse_predicates_depend_only_on_type
    (l l' : LunarEclipseImpl) (s s' : SolarEclipseImpl)
    (hl : l.type = l'.type) (hs : s.type = s'.type) :
    l.isTotal = l'.isTotal ∧ l.isPartial = l'.isPartial
  ∧ l.isPenumbralOnly = l'.isPenumbralOnly
  ∧ s.isTotal = s'.isTotal ∧ s.isAnnular = s'.isAnnular ∧ s.isHybrid = s'.isHybrid
  ∧ s.isPartial = s'.isPartial ∧ s.isCentral = s'.isCentral
  ∧ s.isNonCentral = s'.isNonCentral := by
  refine ⟨?_, ?_, ?_, ?_, ?_, ?_, ?_, ?_, ?_⟩ <;>
    simp [LunarEclipseImpl.isTotal, LunarEclipseImpl.isPartial,
      LunarEclipseImpl.isPenumbralOnly, SolarEclipseImpl.isTotal,
      SolarEclipseImpl.isAnnular, SolarEclipseImpl.isHybrid,
      SolarEclipseImpl.isPartial, SolarEclipseImpl.isCentral,
      SolarEclipseImpl.isNonCentral, hl, hs]

/-- Witness for C3 at two lunar records sharing type bitmask 4 but with
different boundary slots, and two solar records sharing type bitmask 5. -/
theorem eclipse_predicates_depend_only_on_type_witness :
    (LunarEclipseImpl.mk 4 0 0 0 0 0 0 0).isTotal
      = (LunarEclipseImpl.mk 4 1 1 2 3 4 5 6).isTotal :=
  (eclipse_predicates_depend_only_on_type
    (LunarEclipseImpl.mk 4 0 0 0 0 0 0 0) (LunarEclipseImpl.mk 4 1 1 2 3 4 5 6)
    (SolarEclipseImpl.mk 5 0 0 0 0 0 0 0) (SolarEclipseImpl.mk 5 1 1 2 3 4 5 6)
    rfl rfl).1

/-- C3 counterexample: a lunar record with the Total type bit set but with
sentinel totality boundaries still reports `isTotal = true`, so sentinel
boundaries do not propagate as phase absent through the predicates. -/
theorem predicates_ignore_sentinel_cx :
    (LunarEclipseImpl.mk 4 0 0 0 0 0 0 0).totalBegin = 0
  ∧ (LunarEclipseImpl.mk 4 0 0 0 0 0 0 0).totalEnd = 0
  ∧ (LunarEclipseImpl.mk 4 0 0 0 0 0 0 0).isTotal = true :=
  ⟨rfl, rfl, by decide⟩

/-- C10: whenever the type bitmask lacks the Total bit, the totality duration
is 0, whatever the totality boundary slots hold. -/
theorem totality_duration_gated_on_type_bit (e : LunarEclipseImpl)
    (h : e.type &&& EclipseType.Total = 0) :
    e.getTotalityDuration = 0 := by
  have hb : e.isTotal = false := by
    simp [LunarEclipseImpl.isTotal, h]
  simp [LunarEclipseImpl.getTotalityDuration, hb]

/-- Witness for C10 at a partial-only record with nonzero, increasing
totality boundary slots. -/
theorem totality_duration_gated_on_type_bit_witness :
    (LunarEclipseImpl.mk 16 0 0 0 1 2 0 0).getTotalityDuration = 0 :=
  totality_duration_gated_on_type_bit _ (by decide)

/-- C4: with the Moshier bit clear and the state unconfigured, the first
calculation call configures the bundled directory exactly once and flips the
state to configured; the transformation is idempotent, any already-configured
state is left untouched, any Moshier-flagged request is left untouched, and
the state effect of `calculatePosition` and of the lunar eclipse search is
exactly `ensureEphemerisInitialized` on the normalized flags. -/
theorem lazy_initialization_once (nf : Nat) (s : EphemerisState)
    (hm : nf &&& CalculationFlag.MoshierEphemeris.toNat = 0)
    (hu : s.ephemerisPathSet = false) :
    (ensureEphemerisInitialized nf s).ephemerisPathSet = true
  ∧ (ensureEphemerisInitialized nf s).configureCalls
      = s.configureCalls ++ [getBundledEphemerisPath]
  ∧ ensureEphemerisInitialized nf (ensureEphemerisInitialized nf s)
      = ensureEphemerisInitialized nf s
  ∧ (∀ m t, t.ephemerisPathSet = true → ensureEphemerisInitialized m t = t)
  ∧ (∀ m t, m &&& CalculationFlag.MoshierEphemeris.toNat ≠ 0 →
        ensureEphemerisInitialized m t = t)
  ∧ (∀ jd body fl oc, (nodeCalculatePosition jd body fl oc s).state
        = ensureEphemerisInitialized (normalizeFlags fl) s)
  ∧ (∀ jd fl et bw oc, (nodeFindNextLunarEclipse jd fl et bw oc s).state
        = ensureEphemerisInitialized (normalizeFlags fl) s) := by
  have hset : ∀ m t, t.ephemerisPathSet = true → ensureEphemerisInitialized m t = t := by
    intro m t ht
    simp [ensureEphemerisInitialized, ht]
  have hmosh : ∀ m t, m &&& CalculationFlag.MoshierEphemeris.toNat ≠ 0 →
      ensureEphemerisInitialized m t = t := by
    intro m t hmt
    simp [ensureEphemerisInitialized, hmt]
  have hfire : ensureEphemerisInitialized nf s =
      { ephemerisPathSet := true
        configureCalls := s.configureCalls ++ [getBundledEphemerisPath] } := by
    simp [ensureEphemerisInitialized, hm, hu]
  refine ⟨?_, ?_, ?_, hset, hmosh, ?_, ?_⟩
  · rw [hfire]
  · rw [hfire]
  · rw [hfire]
    exact hset nf _ rfl
  · intro jd body fl oc
    rw [nodeCalculatePosition]
    split <;> rfl
  · intro jd fl et bw oc
    rw [nodeFindNextLunarEclipse]
    split <;> rfl

/-- Witness for C4 at the Swiss-Ephemeris default flags 258 and the fresh
unconfigured state. -/
theorem lazy_initialization_once_witness :
    (ensureEphemerisInitialized 258 (EphemerisState.mk false [])).ephemerisPathSet = true
  ∧ (ensureEphemerisInitialized 258 (EphemerisState.mk false [])).configureCalls
      = [getBundledEphemerisPath] :=
  ⟨(lazy_initialization_once 258 ⟨false, []⟩ (by decide) rfl).1,
   (lazy_initialization_once 258 ⟨false, []⟩ (by decide) rfl).2.1⟩

/-- C5 counterexample: the houses operation violates the claim at a negative
engine return code: the Node gateway raises the fixed generic message
`"Failed to calculate houses"` rather than engine-supplied text (the houses
entry point has no error buffer), and the browser gateway ignores the
negative code entirely and returns a domain record. -/
theorem houses_failure_not_verbatim_cx :
    (HousesOutcome.mk (-1) [] []).ret < 0
  ∧ (nodeCalculateHouses 0 0 0 80 (HousesOutcome.mk (-1) [] [])
        (EphemerisState.mk true [])).result = .error "Failed to calculate houses"
  ∧ (wasmCalculateHouses true 0 0 0 80 (HousesOutcome.mk (-1) [] [])
        (Heap.mk 0 [])).result
      = .ok (HouseData.mk [] 0 0 0 0 0 0 0 0 80) := by
  refine ⟨by decide, ?_, ?_⟩
  · simp [nodeCalculateHouses]
  · simp [wasmCalculateHouses, HousePoint.Ascendant, HousePoint.MC,
      HousePoint.ARMC, HousePoint.Vertex, HousePoint.EquatorialAscendant,
      HousePoint.CoAscendant1, HousePoint.CoAscendant2, HousePoint.PolarAscendant]

/-- C5 (amended): for every gateway calculation that carries an engine error
buffer — position calculation and the two eclipse searches, in both the Node
and the browser gateway — a negative engine return code with a non-empty
error text raises exactly the engine-supplied message and returns no domain
record; the houses operation is the exception, raising a fixed generic
message in the Node gateway and ignoring the code in the browser gateway. -/
theorem computation_failure_surfaces_engine_message
    (jd : ℚ) (body : Int) (fl : CalculationFlagInput) (et : EclipseTypeFlagInput)
    (bw : Bool) (oc : CalcOutcome) (ocl ocs : EclipseOutcome)
    (s : EphemerisState) (h : Heap)
    (hneg : oc.retflag < 0) (hnegl : ocl.retflag < 0) (hnegs : ocs.retflag < 0)
    (hmsg : oc.serr ≠ "") (hmsgl : ocl.serr ≠ "") (hmsgs : ocs.serr ≠ "") :
    (nodeCalculatePosition jd body fl oc s).result = .error oc.serr
  ∧ (∀ p, (nodeCalculatePosition jd body fl oc s).result ≠ .ok p)
  ∧ (wasmCalculatePosition true jd body fl oc h).result = .error oc.serr
  ∧ (∀ p, (wasmCalculatePosition true jd body fl oc h).result ≠ .ok p)
  ∧ (nodeFindNextLunarEclipse jd fl et bw ocl s).result = .error ocl.serr
  ∧ (∀ e, (nodeFindNextLunarEclipse jd fl et bw ocl s).result ≠ .ok e)
  ∧ (wasmFindNextLunarEclipse true jd fl et bw ocl h).result = .error ocl.serr
  ∧ (∀ e, (wasmFindNextLunarEclipse true jd fl et bw ocl h).result ≠ .ok e)
  ∧ (nodeFindNextSolarEclipse jd fl et bw ocs s).result = .error ocs.serr
  ∧ (∀ e, (nodeFindNextSolarEclipse jd fl et bw ocs s).result ≠ .ok e)
  ∧ (wasmFindNextSolarEclipse true jd fl et bw ocs h).result = .error ocs.serr
  ∧ (∀ e, (wasmFindNextSolarEclipse true jd fl et bw ocs h).result ≠ .ok e)
  ∧ oc.serr ≠ "" ∧ ocl.serr ≠ "" ∧ ocs.serr ≠ "" := by
  have hnode : (nodeCalculatePosition jd body fl oc s).result = .error oc.serr := by
    rw [nodeCalculatePosition]
    simp [hneg]
  have hwasm : (wasmCalculatePosition true jd body fl oc h).result = .error oc.serr := by
    rw [wasmCalculatePosition]
    simp [hneg]
  have hnl : (nodeFindNextLunarEclipse jd fl et bw ocl s).result = .error ocl.serr := by
    rw [nodeFindNextLunarEclipse]
    simp [hnegl]
  have hwl : (wasmFindNextLunarEclipse true jd fl et bw ocl h).result = .error ocl.serr := by
    rw [wasmFindNextLunarEclipse]
    simp [hnegl]
  have hns : (nodeFindNextSolarEclipse jd fl et bw ocs s).result = .error ocs.serr := by
    rw [nodeFindNextSolarEclipse]
    simp [hnegs]
  have hws : (wasmFindNextSolarEclipse true jd fl et bw ocs h).result = .error ocs.serr := by
    rw [wasmFindNextSolarEclipse]
    simp [hnegs]
  refine ⟨hnode, ?_, hwasm, ?_, hnl, ?_, hwl, ?_, hns, ?_, hws, ?_, hmsg, hmsgl, hmsgs⟩
  · intro p hcon
    rw [hnode] at hcon
    exact Except.noConfusion hcon
  · intro p hcon
    rw [hwasm] at hcon
    exact Except.noConfusion hcon
  · intro e hcon
    rw [hnl] at hcon
    exact Except.noConfusion hcon
  · intro e hcon
    rw [hwl] at hcon
    exact Except.noConfusion hcon
  · intro e hcon
    rw [hns] at hcon
    exact Except.noConfusion hcon
  · intro e hcon
    rw [hws] at hcon
    exact Except.noConfusion hcon

/-- Witness for C5 at a rejected body id outcome and failing eclipse
searches: all six negativity and non-emptiness hypotheses are discharged at
concrete engine outcomes. -/
theorem computation_failure_surfaces_engine_message_witness :
    (nodeCalculatePosition 0 (-5) (.raw 258)
        (CalcOutcome.mk (-1) [] "illegal planet number -5.") ⟨false, []⟩).result
      = .error "illegal planet number -5."
  ∧ (nodeFindNextLunarEclipse 0 (.raw 258) (.raw 0) false
        (EclipseOutcome.mk (-1) [] "eclipse search failed") ⟨false, []⟩).result
      = .error "eclipse search failed" :=
  ⟨(computation_failure_surfaces_engine_message 0 (-5) (.raw 258) (.raw 0) false
      (CalcOutcome.mk (-1) [] "illegal planet number -5.")
      (EclipseOutcome.mk (-1) [] "eclipse search failed")
      (EclipseOutcome.mk (-1) [] "eclipse search failed")
      ⟨false, []⟩ ⟨0, []⟩ (by decide) (by decide) (by decide)
      (by decide) (by decide) (by decide)).1,
   (computation_failure_surfaces_engine_message 0 (-5) (.raw 258) (.raw 0) false
      (CalcOutcome.mk (-1) [] "illegal planet number -5.")
      (EclipseOutcome.mk (-1) [] "eclipse search failed")
      (EclipseOutcome.mk (-1) [] "eclipse search failed")
      ⟨false, []⟩ ⟨0, []⟩ (by decide) (by decide) (by decide)
      (by decide) (by decide) (by decide)).2.2.2.2.1⟩

lemma WF_not_mem (h : Heap) (hwf : h.WF) (k : Nat) : h.next + k ∉ h.live := by
  intro hmem
  have := hwf _ hmem
  omega

lemma erase_one_fresh (l : List Nat) (a : Nat) (ha : a ∉ l) :
    (l ++ [a]).erase a = l := by
  rw [List.erase_append_right _ ha, List.erase_cons_head, List.append_nil]

lemma erase_two_fresh (l : List Nat) (a b : Nat) (ha : a ∉ l) (hb : b ∉ l) :
    ((l ++ [a, b]).erase a).erase b = l := by
  rw [List.erase_append_right _ ha, List.erase_cons_head,
    List.erase_append_right _ hb, List.erase_cons_head, List.append_nil]

lemma erase_four_fresh (l : List Nat) (a b c d : Nat)
    (ha : a ∉ l) (hb : b ∉ l) (hc : c ∉ l) (hd : d ∉ l) :
    ((((l ++ [a, b, c, d]).erase a).erase b).erase c).erase d = l := by
  rw [List.erase_append_right _ ha, List.erase_cons_head,
    List.erase_append_right _ hb, List.erase_cons_head,
    List.erase_append_right _ hc, List.erase_cons_head,
    List.erase_append_right _ hd, List.erase_cons_head, List.append_nil]

lemma wasm_calc_heap (jd : ℚ) (body : Int) (fl : CalculationFlagInput)
    (oc : CalcOutcome) (h : Heap) (hwf : h.WF) :
    (wasmCalculatePosition true jd body fl oc h).heap
      = Heap.mk (h.next + 304) h.live := by
  have herase := erase_two_fresh h.live h.next (h.next + 48)
    (by simpa using WF_not_mem h hwf 0) (WF_not_mem h hwf 48)
  by_cases hr : oc.retflag < 0 <;>
    simp [wasmCalculatePosition, Heap.malloc, Heap.free, hr, List.append_assoc, herase]

lemma wasm_lun_heap (jd : ℚ) (fl : CalculationFlagInput)
    (et : EclipseTypeFlagInput) (bw : Bool) (oc : EclipseOutcome)
    (h : Heap) (hwf : h.WF) :
    (wasmFindNextLunarEclipse true jd fl et bw oc h).heap
      = Heap.mk (h.next + 336) h.live := by
  have herase := erase_two_fresh h.live h.next (h.next + 80)
    (by simpa using WF_not_mem h hwf 0) (WF_not_mem h hwf 80)
  by_cases hr : oc.retflag < 0 <;>
    simp [wasmFindNextLunarEclipse, Heap.malloc, Heap.free, hr, List.append_assoc, herase]

lemma wasm_sol_heap (jd : ℚ) (fl : CalculationFlagInput)
    (et : EclipseTypeFlagInput) (bw : Bool) (oc : EclipseOutcome)
    (h : Heap) (hwf : h.WF) :
    (wasmFindNextSolarEclipse true jd fl et bw oc h).heap
      = Heap.mk (h.next + 336) h.live := by
  have herase := erase_two_fresh h.live h.next (h.next + 80)
    (by simpa using WF_not_mem h hwf 0) (WF_not_mem h hwf 80)
  by_cases hr : oc.retflag < 0 <;>
    simp [wasmFindNextSolarEclipse, Heap.malloc, Heap.free, hr, List.append_assoc, herase]

lemma wasm_houses_heap (jd lat lon : ℚ) (hsys : Nat) (oc : HousesOutcome)
    (h : Heap) (hwf : h.WF) :
    (wasmCalculateHouses true jd lat lon hsys oc h).heap
      = Heap.mk (h.next + 184) h.live := by
  have herase := erase_two_fresh h.live h.next (h.next + 104)
    (by simpa using WF_not_mem h hwf 0) (WF_not_mem h hwf 104)
  simp [wasmCalculateHouses, Heap.malloc, Heap.free, List.append_assoc, herase]

lemma wasm_revjul_heap (jd : ℚ) (cal : Nat) (oc : RevjulOutcome)
    (h : Heap) (hwf : h.WF) :
    (wasmJulianDayToDate true jd cal oc h).heap
      = Heap.mk (h.next + 20) h.live := by
  have herase := erase_four_fresh h.live h.next (h.next + 4) (h.next + 8) (h.next + 12)
    (by simpa using WF_not_mem h hwf 0) (WF_not_mem h hwf 4)
    (WF_not_mem h hwf 8) (WF_not_mem h hwf 12)
  simp [wasmJulianDayToDate, Heap.malloc, Heap.free, List.append_assoc, herase]

lemma wasm_set_path_heap (path : String) (h : Heap) (hwf : h.WF) :
    (wasmSetEphemerisPath true path h).heap
      = Heap.mk (h.next + (path.length + 1)) h.live := by
  have herase := erase_one_fresh h.live h.next (by simpa using WF_not_mem h hwf 0)
  simp [wasmSetEphemerisPath, Heap.malloc, Heap.free, herase]

/-- C6: every heap-using browser gateway operation leaves the set of live
linear-memory allocations exactly as it found it, on the failing path as
well as on the success path, and iterating failing position calls never
grows the live set. -/
theorem wasm_buffers_freed_on_every_path
    (jd lat lon : ℚ) (body : Int) (fl : CalculationFlagInput)
    (et : EclipseTypeFlagInput) (bw : Bool) (path : String) (cal hsys : Nat)
    (oc : CalcOutcome) (ocl ocs : EclipseOutcome) (och : HousesOutcome)
    (ocr : RevjulOutcome) (h : Heap) (hwf : h.WF) :
    (wasmCalculatePosition true jd body fl oc h).heap.live = h.live
  ∧ (wasmFindNextLunarEclipse true jd fl et bw ocl h).heap.live = h.live
  ∧ (wasmFindNextSolarEclipse true jd fl et bw ocs h).heap.live = h.live
  ∧ (wasmCalculateHouses true jd lat lon hsys och h).heap.live = h.live
  ∧ (wasmJulianDayToDate true jd cal ocr h).heap.live = h.live
  ∧ (wasmSetEphemerisPath true path h).heap.live = h.live
  ∧ ∀ n, (iterateWasmCalcHeap jd body fl oc n h).live = h.live := by
  have iter : ∀ n (g : Heap), g.WF →
      (iterateWasmCalcHeap jd body fl oc n g).live = g.live
    ∧ (iterateWasmCalcHeap jd body fl oc n g).WF := by
    intro n
    induction n with
    | zero => exact fun g hg => ⟨rfl, hg⟩
    | succ n ih =>
      intro g hg
      have hstep := wasm_calc_heap jd body fl oc g hg
      have hstepWF : (wasmCalculatePosition true jd body fl oc g).heap.WF := by
        rw [hstep]
        intro p hp
        exact lt_of_lt_of_le (hg p hp) (Nat.le_add_right _ _)
      obtain ⟨ha, hb⟩ := ih _ hstepWF
      rw [iterateWasmCalcHeap]
      exact ⟨ha.trans (by rw [hstep]), hb⟩
  exact ⟨by rw [wasm_calc_heap jd body fl oc h hwf],
    by rw [wasm_lun_heap jd fl et bw ocl h hwf],
    by rw [wasm_sol_heap jd fl et bw ocs h hwf],
    by rw [wasm_houses_heap jd lat lon hsys och h hwf],
    by rw [wasm_revjul_heap jd cal ocr h hwf],
    by rw [wasm_set_path_heap path h hwf],
    fun n => (iter n h hwf).1⟩

/-- Witness for C6 at the empty well-formed heap and a failing engine
outcome: two consecutive failing position calls leave no live allocation. -/
theorem wasm_buffers_freed_on_every_path_witness :
    (iterateWasmCalcHeap 0 0 (.raw 260) (CalcOutcome.mk (-1) [] "err") 2
        (Heap.mk 0 [])).live = [] :=
  (wasm_buffers_freed_on_every_path 0 0 0 0 (.raw 260) (.raw 0) false "" 1 80
    (CalcOutcome.mk (-1) [] "err") (EclipseOutcome.mk (-1) [] "err")
    (EclipseOutcome.mk (-1) [] "err") (HousesOutcome.mk 0 [] [])
    (RevjulOutcome.mk 0 0 0 0) (Heap.mk 0 []) (by simp [Heap.WF])).2.2.2.2.2.2 2

/-- C8: every calculation operation of the browser gateway invoked before
`init()` has completed returns the descriptive not-ready error immediately,
leaves the heap untouched, and invokes no engine entry point. -/
theorem not_ready_fails_fast
    (ver name path : String) (jd lat lon hour : ℚ) (year month day body : Int)
    (cal hsys : Nat) (fl : CalculationFlagInput) (et : EclipseTypeFlagInput)
    (bw : Bool) (oc : CalcOutcome) (ocl ocs : EclipseOutcome)
    (och : HousesOutcome) (ocr : RevjulOutcome) (ocj : ℚ) (h : Heap) :
    wasmVersion false ver h = ⟨.error notReadyMessage, h, []⟩
  ∧ wasmSetEphemerisPath false path h = ⟨.error notReadyMessage, h, []⟩
  ∧ wasmJulianDay false year month day hour cal ocj h = ⟨.error notReadyMessage, h, []⟩
  ∧ wasmJulianDayToDate false jd cal ocr h = ⟨.error notReadyMessage, h, []⟩
  ∧ wasmCalculatePosition false jd body fl oc h = ⟨.error notReadyMessage, h, []⟩
  ∧ wasmCalculateHouses false jd lat lon hsys och h = ⟨.error notReadyMessage, h, []⟩
  ∧ wasmFindNextLunarEclipse false jd fl et bw ocl h = ⟨.error notReadyMessage, h, []⟩
  ∧ wasmFindNextSolarEclipse false jd fl et bw ocs h = ⟨.error notReadyMessage, h, []⟩
  ∧ wasmGetCelestialBodyName false body name h = ⟨.error notReadyMessage, h, []⟩ :=
  ⟨rfl, rfl, rfl, rfl, rfl, rfl, rfl, rfl, rfl⟩

/-- C9 (amended): on every operation with all arguments supplied explicitly,
the two gateways pass identical normalized flag and filter integers to the
same engine entry point and map identical engine outputs to identical domain
records, with two exceptions exhibited by the counterexample: the default
flag arguments of the position and eclipse wrappers differ between the
gateways, and on a negative houses return code the Node gateway raises while
the browser gateway returns the record, so houses agreement is stated for a
successful return code. -/
theorem gateways_agree_on_explicit_arguments
    (jd lat lon hour : ℚ) (body year month day : Int) (cal hsys : Nat)
    (fl : CalculationFlagInput) (et : EclipseTypeFlagInput) (bw : Bool)
    (oc : CalcOutcome) (ocl ocs : EclipseOutcome) (och : HousesOutcome)
    (ocr : RevjulOutcome) (ocj : ℚ) (ocn : String)
    (s : EphemerisState) (h : Heap) (hret : 0 ≤ och.ret) :
    (nodeCalculatePosition jd body fl oc s).calls
        = (wasmCalculatePosition true jd body fl oc h).calls
  ∧ (nodeCalculatePosition jd body fl oc s).result
        = (wasmCalculatePosition true jd body fl oc h).result
  ∧ (nodeFindNextLunarEclipse jd fl et bw ocl s).calls
        = (wasmFindNextLunarEclipse true jd fl et bw ocl h).calls
  ∧ (nodeFindNextLunarEclipse jd fl et bw ocl s).result
        = (wasmFindNextLunarEclipse true jd fl et bw ocl h).result
  ∧ (nodeFindNextSolarEclipse jd fl et bw ocs s).calls
        = (wasmFindNextSolarEclipse true jd fl et bw ocs h).calls
  ∧ (nodeFindNextSolarEclipse jd fl et bw ocs s).result
        = (wasmFindNextSolarEclipse true jd fl et bw ocs h).result
  ∧ (nodeJulianDay year month day hour cal ocj s).calls
        = (wasmJulianDay true year month day hour cal ocj h).calls
  ∧ (nodeJulianDay year month day hour cal ocj s).result
        = (wasmJulianDay true year month day hour cal ocj h).result
  ∧ (nodeJulianDayToDate jd cal ocr s).calls
        = (wasmJulianDayToDate true jd cal ocr h).calls
  ∧ (nodeJulianDayToDate jd cal ocr s).result
        = (wasmJulianDayToDate true jd cal ocr h).result
  ∧ (nodeCalculateHouses jd lat lon hsys och s).calls
        = (wasmCalculateHouses true jd lat lon hsys och h).calls
  ∧ (nodeCalculateHouses jd lat lon hsys och s).result
        = (wasmCalculateHouses true jd lat lon hsys och h).result
  ∧ (nodeGetCelestialBodyName body ocn s).calls
        = (wasmGetCelestialBodyName true body ocn h).calls
  ∧ (nodeGetCelestialBodyName body ocn s).result
        = (wasmGetCelestialBodyName true body ocn h).result := by
  have hh : ¬ och.ret < 0 := not_lt.mpr hret
  refine ⟨?_, ?_, ?_, ?_, ?_, ?_, rfl, rfl, rfl, rfl, ?_, ?_, rfl, rfl⟩
  · by_cases hr : oc.retflag < 0 <;>
      simp [nodeCalculatePosition, wasmCalculatePosition, hr]
  · by_cases hr : oc.retflag < 0 <;>
      simp [nodeCalculatePosition, wasmCalculatePosition, hr]
  · by_cases hr : ocl.retflag < 0 <;>
      simp [nodeFindNextLunarEclipse, wasmFindNextLunarEclipse, hr]
  · by_cases hr : ocl.retflag < 0 <;>
      simp [nodeFindNextLunarEclipse, wasmFindNextLunarEclipse, hr]
  · by_cases hr : ocs.retflag < 0 <;>
      simp [nodeFindNextSolarEclipse, wasmFindNextSolarEclipse, hr]
  · by_cases hr : ocs.retflag < 0 <;>
      simp [nodeFindNextSolarEclipse, wasmFindNextSolarEclipse, hr]
  · simp [nodeCalculateHouses, wasmCalculateHouses, hh]
  · simp [nodeCalculateHouses, wasmCalculateHouses, hh]

/-- Witness for C9 at explicit Swiss-Ephemeris flags, body 0, and a
successful houses outcome. -/
theorem gateways_agree_on_explicit_arguments_witness :
    (nodeCalculatePosition 0 0 (.raw 2) (CalcOutcome.mk 2 [] "")
        (EphemerisState.mk true [])).calls
      = (wasmCalculatePosition true 0 0 (.raw 2) (CalcOutcome.mk 2 [] "")
        (Heap.mk 0 [])).calls :=
  (gateways_agree_on_explicit_arguments 0 0 0 0 0 0 0 0 1 80 (.raw 2) (.raw 0)
    false (CalcOutcome.mk 2 [] "") (EclipseOutcome.mk 4 [] "")
    (EclipseOutcome.mk 8 [] "") (HousesOutcome.mk 0 [] [])
    (RevjulOutcome.mk 0 0 0 0) 0 "Sun" (EphemerisState.mk true [])
    (Heap.mk 0 []) (by decide)).1

/-- C9 counterexample: with the flags argument left to its default, the two
gateways pass different flag integers to the engine (the Node gateway passes
SwissEphemeris|Speed = 258 while the browser gateway passes
Moshier|Speed = 260); and on an identical houses engine output with a
negative return code the two gateways produce different results (the Node
gateway raises, the browser gateway returns a record). -/
theorem default_flags_differ_between_gateways_cx :
    (nodeCalculatePosition 0 0 nodeCalcPositionDefaultFlags
        (CalcOutcome.mk 0 [] "") (EphemerisState.mk true [])).calls
      = [EngineCall.calcUt 0 0 258]
  ∧ (wasmCalculatePosition true 0 0 wasmCalcPositionDefaultFlags
        (CalcOutcome.mk 0 [] "") (Heap.mk 0 [])).calls
      = [EngineCall.calcUt 0 0 260]
  ∧ (nodeCalculatePosition 0 0 nodeCalcPositionDefaultFlags
        (CalcOutcome.mk 0 [] "") (EphemerisState.mk true [])).calls
      ≠ (wasmCalculatePosition true 0 0 wasmCalcPositionDefaultFlags
        (CalcOutcome.mk 0 [] "") (Heap.mk 0 [])).calls
  ∧ (nodeCalculateHouses 0 0 0 80 (HousesOutcome.mk (-1) [] [])
        (EphemerisState.mk true [])).result
      ≠ (wasmCalculateHouses true 0 0 0 80 (HousesOutcome.mk (-1) [] [])
        (Heap.mk 0 [])).result := by
  refine ⟨?_, ?_, ?_, ?_⟩ <;>
    simp [nodeCalculatePosition, wasmCalculatePosition,
      nodeCalculateHouses, wasmCalculateHouses,
      nodeCalcPositionDefaultFlags, wasmCalcPositionDefaultFlags,
      CommonCalculationFlags.DefaultSwissEphemeris,
      CommonCalculationFlags.DefaultMoshier, normalizeFlags,
      CalculationFlag.toNat]

end Swisseph
